import Mathlib

/-!
Verification of the flambe fragment: `flambe/nn/mos.py` (class `MixtureOfSoftmax`)
and `flambe/model/model.py` (class `Model`).

Tensors are shallowly embedded as a shape together with an indexing function into
`ℚ`.  The transcendental library functions used by the source (`exp` inside
softmax, `tanh`, `log` inside log-softmax) are abstract parameters `E`, `T`, `L`
of the computations, so that every definition stays executable and the control
flow — which in the source depends only on shapes, never on values — is decided
exactly as PyTorch decides it.  Fallible tensor operations return
`Except PyErr Tensor` mirroring the Python exceptions.
-/

/-- The Python exceptions that the embedded operations can raise. -/
inductive PyErr where
  /-- `RuntimeError` from a matrix-shape mismatch inside a linear layer. -/
  | shapeMismatch
  /-- `IndexError`: too many indices for a tensor (e.g. `w[:, :, i]` on a 2-D `w`). -/
  | indexError
  /-- `RuntimeError` from `torch.cat` (empty tensor list or mismatched shapes). -/
  | catError
  /-- `RuntimeError` from incompatible shapes in a broadcast elementwise op. -/
  | broadcastError
  /-- `AttributeError` from reading an attribute that was never assigned. -/
  | attributeError
  deriving DecidableEq, Repr

/-- A tensor: a shape (list of dimension sizes) together with an indexing
function.  Only entries at valid indices are meaningful. -/
structure Tensor where
  shape : List ℕ
  data : List ℕ → ℚ

/-- Dot product of length `n` of two indexed families. -/
def dot (n : ℕ) (f g : ℕ → ℚ) : ℚ :=
  ((List.range n).map (fun t => f t * g t)).sum

/-- Modelled from the spec: `flambe.nn.mlp.MLPEncoder` is imported by `mos.py`
but its source is not under `src/`.  The spec (§3) describes the two uses as "a
learned affine/nonlinear projection" from an input size to an output size
applied along the last axis of the input (`gate_projection` from `input_size`
to `mixture_count`, each of the `component_projections` from `input_size` to
`output_size`).  It is modelled as a learned affine map along the last axis;
construction stores the sizes and parameters and performs no validation. -/
structure MLPEncoder where
  in_size : ℕ
  out_size : ℕ
  weight : ℕ → ℕ → ℚ
  bias : ℕ → ℚ

/-- Applying the projection: requires the input's last dimension to equal
`in_size` (else the underlying matrix multiply raises a shape error), maps
shape `lead ++ [in_size]` to `lead ++ [out_size]` affinely. -/
def MLPEncoder.apply (e : MLPEncoder) (t : Tensor) : Except PyErr Tensor :=
  if t.shape.getLast? = some e.in_size then
    .ok ⟨t.shape.dropLast ++ [e.out_size],
      fun idx =>
        e.bias (idx.getLastD 0) +
          dot e.in_size (e.weight (idx.getLastD 0))
            (fun s => t.data (idx.dropLast ++ [s]))⟩
  else
    .error .shapeMismatch

/-- The implicit dimension chosen by torch `nn.Softmax()` / `nn.LogSoftmax()`
when constructed with no `dim` argument (deprecated legacy behaviour,
`torch.nn.functional._get_softmax_dim`): dimension 0 for tensors of dimension
0, 1 or 3, and dimension 1 otherwise. -/
def legacySoftmaxDim (ndim : ℕ) : ℕ :=
  if ndim = 0 ∨ ndim = 1 ∨ ndim = 3 then 0 else 1

/-- Replace the entry at position `d` of an index with `j`. -/
def setIdx (idx : List ℕ) (d j : ℕ) : List ℕ :=
  idx.take d ++ [j] ++ idx.drop (d + 1)

/-- Softmax along dimension `d`, with `E` the exponential function:
entry `x` becomes `E x` divided by the sum of `E` over its slice along `d`. -/
def Tensor.softmaxAlong (t : Tensor) (E : ℚ → ℚ) (d : ℕ) : Tensor :=
  ⟨t.shape,
    fun idx =>
      E (t.data idx) /
        ((List.range (t.shape.getD d 0)).map
          (fun j => E (t.data (setIdx idx d j)))).sum⟩

/-- Elementwise application of a scalar function (used for `nn.Tanh` and for
the `log` of log-softmax). -/
def Tensor.mapE (t : Tensor) (f : ℚ → ℚ) : Tensor :=
  ⟨t.shape, fun idx => f (t.data idx)⟩

/-- The basic-indexing expression `w[:, :, i]`: requires a tensor of dimension
at least 3 and `i` within dimension 2; removes dimension 2, fixing it to `i`.
On a tensor of dimension less than 3 it raises `IndexError` (too many
indices). -/
def Tensor.sliceDim2 (t : Tensor) (i : ℕ) : Except PyErr Tensor :=
  match t.shape with
  | d0 :: d1 :: d2 :: rest =>
      if i < d2 then
        .ok ⟨d0 :: d1 :: rest, fun idx => t.data (idx.take 2 ++ [i] ++ idx.drop 2)⟩
      else
        .error .indexError
  | _ => .error .indexError

/-- One dimension of the broadcast of two shapes: equal sizes broadcast to
themselves, a size of 1 stretches to the other size, anything else fails. -/
def broadcastDim (a b : ℕ) : Option ℕ :=
  if a = b then some a else if a = 1 then some b else if b = 1 then some a else none

/-- Broadcast of two reversed shapes (so that alignment is at the head). -/
def broadcastRev : List ℕ → List ℕ → Option (List ℕ)
  | [], ys => some ys
  | x :: xs, [] => some (x :: xs)
  | x :: xs, y :: ys => do
      let d ← broadcastDim x y
      let rest ← broadcastRev xs ys
      pure (d :: rest)

/-- PyTorch shape broadcasting: align the two shapes at their last dimension,
pad the shorter with 1s on the left, combine dimensionwise. -/
def broadcastShapes (xs ys : List ℕ) : Option (List ℕ) :=
  (broadcastRev xs.reverse ys.reverse).map List.reverse

/-- Map a reversed result index back into a reversed source shape: a source
dimension of size 1 is indexed at 0, others keep the result coordinate, and
leading (padded) coordinates are dropped. -/
def srcIdxRev : List ℕ → List ℕ → List ℕ
  | [], _ => []
  | _ :: ss, [] => 0 :: srcIdxRev ss []
  | s :: ss, i :: is => (if s = 1 then 0 else i) :: srcIdxRev ss is

/-- Map a result index of a broadcast operation to the corresponding index of
a source tensor of shape `srcShape`. -/
def bcastIdx (srcShape idx : List ℕ) : List ℕ :=
  (srcIdxRev srcShape.reverse idx.reverse).reverse

/-- Broadcasting elementwise multiplication, `a * b` on tensors. -/
def Tensor.mul (a b : Tensor) : Except PyErr Tensor :=
  match broadcastShapes a.shape b.shape with
  | some s =>
      .ok ⟨s, fun idx => a.data (bcastIdx a.shape idx) * b.data (bcastIdx b.shape idx)⟩
  | none => .error .broadcastError

/-- Value of a concatenation along dimension 0 at first coordinate `a`:
walk the blocks, subtracting each block's leading size. -/
def catPick : List Tensor → ℕ → List ℕ → ℚ
  | [], _, _ => 0
  | t :: rest, a, tailIdx =>
      if a < t.shape.headD 0 then t.data (a :: tailIdx)
      else catPick rest (a - t.shape.headD 0) tailIdx

/-- `torch.cat(ts, dim=0)`: requires a non-empty list of tensors of equal
dimension at least 1 agreeing on all dimensions except the first; the result's
leading dimension is the sum of the leading dimensions. -/
def cat0 (ts : List Tensor) : Except PyErr Tensor :=
  match ts with
  | [] => .error .catError
  | t :: rest =>
      match t.shape with
      | [] => .error .catError
      | d0 :: tail =>
          if ∀ u ∈ rest, u.shape.length = tail.length + 1 ∧ u.shape.drop 1 = tail then
            .ok ⟨(d0 + (rest.map (fun u => u.shape.headD 0)).sum) :: tail,
              fun idx => catPick ts (idx.headD 0) (idx.drop 1)⟩
          else
            .error .catError

/-- `t.sum(dim=0)`: sums out the leading dimension (a 0-dimensional tensor is
returned unchanged, as in torch). -/
def Tensor.sum0 (t : Tensor) : Except PyErr Tensor :=
  match t.shape with
  | [] => .ok t
  | d0 :: tail =>
      .ok ⟨tail, fun idx => ((List.range d0).map (fun a => t.data (a :: idx))).sum⟩

/-- The final activation stored by `__init__` when `use_activation` is true:
`nn.LogSoftmax()` if `take_log` else `nn.Softmax()` (both with the legacy
implicit dimension). -/
inductive Activation where
  | softmax
  | logSoftmax
  deriving DecidableEq, Repr

/-- Applying the stored activation module, with `E` the exponential and `L`
the logarithm. -/
def Activation.applyTo (a : Activation) (E L : ℚ → ℚ) (t : Tensor) : Tensor :=
  match a with
  | .softmax => t.softmaxAlong E (legacySoftmaxDim t.shape.length)
  | .logSoftmax => (t.softmaxAlong E (legacySoftmaxDim t.shape.length)).mapE L

/-- The attributes assigned by `MixtureOfSoftmax.__init__`: the two sizes, the
gate projection `pi_w`, the list `layers` of component projections, and —
only when the constructor argument `use_activation` is true — `activation`.
The stateless modules `self.softmax` and `self.tanh` carry no data and are
represented by the corresponding tensor operations.  Note that no attribute
named `use_activation` is ever assigned. -/
structure MixtureOfSoftmax where
  input_size : ℕ
  output_size : ℕ
  pi_w : MLPEncoder
  layers : List MLPEncoder
  activation : Option Activation

namespace MixtureOfSoftmax

/-- `MixtureOfSoftmax.__init__(input_size, output_size, k, use_activation,
take_log)`.  The learned parameters of the freshly constructed projections are
supplied by `gw`/`gb` (gate weight and bias) and `lw`/`lb` (weight and bias of
the `i`-th component projection); in the source they are filled by the torch
initializer and later mutated only by an external optimizer.  The constructor
performs no validation of the sizes and cannot fail. -/
def init (input_size output_size : ℕ)
    (gw : ℕ → ℕ → ℚ) (gb : ℕ → ℚ)
    (lw : ℕ → ℕ → ℕ → ℚ) (lb : ℕ → ℕ → ℚ)
    (k : ℕ) (use_activation take_log : Bool) : MixtureOfSoftmax :=
  { input_size := input_size
    output_size := output_size
    pi_w := ⟨input_size, k, gw, gb⟩
    layers := (List.range k).map (fun i => ⟨input_size, output_size, lw i, lb i⟩)
    activation :=
      if use_activation then
        some (if take_log then Activation.logSoftmax else Activation.softmax)
      else none }

/-- The Python default values of the optional constructor arguments:
`k = 1`, `use_activation = True`, `take_log = True`. -/
def initDefault (input_size output_size : ℕ)
    (gw : ℕ → ℕ → ℚ) (gb : ℕ → ℚ)
    (lw : ℕ → ℕ → ℕ → ℚ) (lb : ℕ → ℕ → ℚ) : MixtureOfSoftmax :=
  init input_size output_size gw gb lw lb 1 true true

/-- Line 90 of `mos.py`: `w = self.softmax(self.pi_w(data))` — the gate
logits through `nn.Softmax()` with its legacy implicit dimension. -/
def gateWeights (m : MixtureOfSoftmax) (E : ℚ → ℚ) (data : Tensor) :
    Except PyErr Tensor := do
  let logits ← m.pi_w.apply data
  pure (logits.softmaxAlong E (legacySoftmaxDim logits.shape.length))

/-- The list comprehension of line 92 of `mos.py`:
`[w[:, :, i] * self.tanh(W(data)) for i, W in enumerate(self.layers)]`,
with `i` starting at the given index.  Python evaluates `w[:, :, i]` before
`self.tanh(W(data))`, and the first exception raised propagates. -/
def combineList (w : Tensor) (T : ℚ → ℚ) (data : Tensor) :
    ℕ → List MLPEncoder → Except PyErr (List Tensor)
  | _, [] => .ok []
  | i, Wl :: rest => do
    let wi ← w.sliceDim2 i
    let ti ← Wl.apply data
    let prod ← wi.mul (ti.mapE T)
    let tail ← combineList w T data (i + 1) rest
    pure (prod :: tail)

/-- Lines 90–93 of `mos.py`, the combination before the final activation:
the weighted per-component products followed by
`out = torch.cat(out, dim=0).sum(dim=0)`. -/
def combined (m : MixtureOfSoftmax) (E T : ℚ → ℚ) (data : Tensor) :
    Except PyErr Tensor := do
  let w ← m.gateWeights E data
  let outs ← combineList w T data 0 m.layers
  let c ← cat0 outs
  c.sum0

/-- The read of `self.use_activation` on line 94 of `mos.py`.  `__init__`
assigns `self.activation` (conditionally) but never assigns an attribute named
`use_activation`, so this lookup always raises `AttributeError`. -/
def use_activation_attr (m : MixtureOfSoftmax) : Except PyErr Bool :=
  .error .attributeError

/-- `MixtureOfSoftmax.forward(data)`, lines 90–97 of `mos.py`. -/
def forward (m : MixtureOfSoftmax) (E T L : ℚ → ℚ) (data : Tensor) :
    Except PyErr Tensor := do
  let out ← m.combined E T data
  let useAct ← m.use_activation_attr
  if useAct then
    match m.activation with
    | some a => pure (a.applyTo E L out)
    | none => .error .attributeError
  else
    pure out

/-- The combination step as the SPEC words it (§4.2, steps 2–4): softmax of
the gate logits along the LAST axis, `candidate_i = tanh(proj_i(input))`, and
`output = Σ_i weights[..., i] * candidate_i` with the gate weight broadcast
across the `output_size` axis, preserving the leading axes of the input.
Stated only for comparison with `MixtureOfSoftmax.combined`, which follows the
source. -/
def specCombine (m : MixtureOfSoftmax) (E T : ℚ → ℚ) (data : Tensor) :
    Except PyErr Tensor := do
  let logits ← m.pi_w.apply data
  let w := logits.softmaxAlong E (logits.shape.length - 1)
  let cands ← m.layers.mapM (fun Wl => do
    let t ← Wl.apply data
    pure (t.mapE T))
  pure ⟨data.shape.dropLast ++ [m.output_size],
    fun idx =>
      (cands.enum.map
        (fun ic => w.data (idx.dropLast ++ [ic.1]) * ic.2.data idx)).sum⟩

end MixtureOfSoftmax

/-- The error, if any, of a fallible tensor computation. -/
def errOf : Except PyErr Tensor → Option PyErr
  | .error e => some e
  | .ok _ => none

/-- The result shape, if any, of a fallible tensor computation. -/
def shapeOf : Except PyErr Tensor → Option (List ℕ)
  | .error _ => none
  | .ok t => some t.shape

/-- The entry at a given index of the result, if any, of a fallible tensor
computation. -/
def entryAt : Except PyErr Tensor → List ℕ → Option ℚ
  | .ok t, idx => some (t.data idx)
  | .error _, _ => none

/-- The metrics mapping exchanged between `aggregate` and `compare`
(`Dict[str, Any]` in the source, with arbitrary metric values). -/
def Metrics := List (String × ℚ)

namespace Model

/-- `Model.compare(self, metrics, other)` from `flambe/model/model.py`: the
default implementation ignores both arguments and returns `True`. -/
def compare (metrics other : Metrics) : Bool := true

end Model

/-! Concrete parameter instantiations used by witnesses and counterexamples. -/

/-- Zero weight matrix used in concrete instantiations. -/
def zeroW : ℕ → ℕ → ℚ := fun _ _ => 0

/-- Zero bias vector. -/
def zeroB : ℕ → ℚ := fun _ => 0

/-- All-ones gate weight matrix. -/
def oneW : ℕ → ℕ → ℚ := fun _ _ => 1

/-- Component-projection weights all equal to one. -/
def oneLW : ℕ → ℕ → ℕ → ℚ := fun _ _ _ => 1

/-- Component-projection biases all zero. -/
def zeroLB : ℕ → ℕ → ℚ := fun _ _ => 0

/-- A concrete stand-in for the abstract exponential: constantly one
(positive everywhere, as the exponential is). -/
def constOne : ℚ → ℚ := fun _ => 1

/-- A concrete injective stand-in for the abstract exponential. -/
def incQ : ℚ → ℚ := fun x => 1 + x

/-- The identity, a concrete stand-in for the abstract tanh and log. -/
def idQ : ℚ → ℚ := fun x => x

/-- A 3-D input of shape `[2, 1, 1]` whose two leading positions hold 0, 1. -/
def rampInput : Tensor := ⟨[2, 1, 1], fun idx => (idx.headD 0 : ℚ)⟩

/-- C7: the default `Model.compare` returns `true` for every pair of metrics
mappings, including a pair of equal arguments; it never favors the second. -/
theorem model_compare_always_true (a b : Metrics) :
    Model.compare a b = true ∧ Model.compare a a = true :=
  ⟨rfl, rfl⟩

/-- C10: constructing `MixtureOfSoftmax` with only the two sizes supplied uses
the Python defaults `k = 1`, `use_activation = True`, `take_log = True`: the
resulting layer has exactly one component projection and stores log-softmax
(not plain softmax) as its final activation. -/
theorem mos_init_defaults (i o : ℕ) (gw : ℕ → ℕ → ℚ) (gb : ℕ → ℚ)
    (lw : ℕ → ℕ → ℕ → ℚ) (lb : ℕ → ℕ → ℚ) :
    (MixtureOfSoftmax.initDefault i o gw gb lw lb).layers.length = 1 ∧
    (MixtureOfSoftmax.initDefault i o gw gb lw lb).activation =
      some Activation.logSoftmax ∧
    (MixtureOfSoftmax.initDefault i o gw gb lw lb).activation ≠
      some Activation.softmax := by
  refine ⟨rfl, rfl, ?_⟩
  simp [MixtureOfSoftmax.initDefault, MixtureOfSoftmax.init]

/-- C5 (counterexample): constructing with `k == 0`, `input_size == 0` or
`output_size == 0` does NOT fail: `__init__` validates nothing, and each call
below produces a well-defined object. -/
theorem mos_init_zero_sizes_construct :
    (MixtureOfSoftmax.init 4 3 zeroW zeroB oneLW zeroLB 0 true true).layers.length = 0 ∧
    (MixtureOfSoftmax.init 0 3 zeroW zeroB oneLW zeroLB 2 true true).input_size = 0 ∧
    (MixtureOfSoftmax.init 4 0 zeroW zeroB oneLW zeroLB 2 true true).output_size = 0 := by
  refine ⟨rfl, rfl, rfl⟩

/-- C5 (amended): construction never fails, whatever the sizes (zero
included): `__init__` performs no validation and always yields an object
storing the given sizes, `k` component projections, and a gate projection
from `input_size` to `k`. -/
theorem mos_init_no_validation (i o k : ℕ) (gw : ℕ → ℕ → ℚ) (gb : ℕ → ℚ)
    (lw : ℕ → ℕ → ℕ → ℚ) (lb : ℕ → ℕ → ℚ) (a l : Bool) :
    (MixtureOfSoftmax.init i o gw gb lw lb k a l).input_size = i ∧
    (MixtureOfSoftmax.init i o gw gb lw lb k a l).output_size = o ∧
    (MixtureOfSoftmax.init i o gw gb lw lb k a l).layers.length = k ∧
    (MixtureOfSoftmax.init i o gw gb lw lb k a l).pi_w.in_size = i ∧
    (MixtureOfSoftmax.init i o gw gb lw lb k a l).pi_w.out_size = k := by
  refine ⟨rfl, rfl, ?_, rfl, rfl⟩
  simp [MixtureOfSoftmax.init]

/-- C6: with `k == 1` the output is NOT independent of the gate projection.
The two layers below share identical component projections and differ only in
the gate weights (zero vs one); on the same input their combined outputs
differ (1/2 vs 1/3), because `nn.Softmax()` normalizes the single gate weight
over dimension 0 (the sequence axis) rather than over the singleton component
axis.  Moreover `forward` itself never returns: it raises `AttributeError`. -/
theorem mos_k1_output_depends_on_gate :
    entryAt ((MixtureOfSoftmax.init 1 1 zeroW zeroB oneLW zeroLB 1 false true).combined
      incQ idQ rampInput) [0, 0] = some (1/2) ∧
    entryAt ((MixtureOfSoftmax.init 1 1 oneW zeroB oneLW zeroLB 1 false true).combined
      incQ idQ rampInput) [0, 0] = some (1/3) ∧
    errOf ((MixtureOfSoftmax.init 1 1 zeroW zeroB oneLW zeroLB 1 false true).forward
      incQ idQ idQ rampInput) = some PyErr.attributeError := by
  with_unfolding_all decide

/-- C2: the combination of lines 92–93 does not preserve the leading axes: on
an input of shape `[2, 1, 1]` (`input_size = output_size = 1`, `k = 1`) the
source's concatenate-then-sum produces shape `[2, 1]`, while the combination
as the spec words it (`specCombine`) produces `[2, 1, 1]`. -/
theorem mos_combine_shape_diverges_from_spec :
    shapeOf ((MixtureOfSoftmax.init 1 1 zeroW zeroB oneLW zeroLB 1 false true).combined
      constOne idQ ⟨[2, 1, 1], fun _ => 0⟩) = some [2, 1] ∧
    shapeOf ((MixtureOfSoftmax.init 1 1 zeroW zeroB oneLW zeroLB 1 false true).specCombine
      constOne idQ ⟨[2, 1, 1], fun _ => 0⟩) = some [2, 1, 1] ∧
    ([2, 1] : List ℕ) ≠ [2, 1, 1] := by
  with_unfolding_all decide

/-- Helper: applying a projection to a 2-D tensor whose last dimension
matches succeeds, with a 2-D result. -/
theorem MLPEncoder.apply_two_dim (e : MLPEncoder) (b : ℕ) (f : List ℕ → ℚ) :
    e.apply ⟨[b, e.in_size], f⟩ =
      .ok ⟨[b, e.out_size],
        fun idx =>
          e.bias (idx.getLastD 0) +
            dot e.in_size (e.weight (idx.getLastD 0))
              (fun s => f (idx.dropLast ++ [s]))⟩ := by
  unfold MLPEncoder.apply
  have hc : (Tensor.mk [b, e.in_size] f).shape.getLast? = some e.in_size := rfl
  rw [if_pos hc]
  rfl

/-- Helper: the comprehension of line 92 raises `IndexError` at its first
element whenever the gate-weight tensor is 2-D. -/
theorem combineList_two_dim (w : Tensor) (T : ℚ → ℚ) (data : Tensor)
    (j d0 d1 : ℕ) (Wl : MLPEncoder) (rest : List MLPEncoder)
    (hw : w.shape = [d0, d1]) :
    MixtureOfSoftmax.combineList w T data j (Wl :: rest) =
      .error .indexError := by
  have hs : w.sliceDim2 j = .error .indexError := by
    unfold Tensor.sliceDim2
    rw [hw]
  unfold MixtureOfSoftmax.combineList
  rw [hs]
  rfl

/-- C1: `forward` never succeeds on a 2-D input of shape
`[batch, input_size]`: for every valid configuration (`k ≥ 1`) and every data
function, the gate projection succeeds with a 2-D weight tensor, and the
indexing `w[:, :, i]` of line 92 then raises `IndexError`, so no tensor of
shape `[batch, output_size]` is returned. -/
theorem mos_forward_2d_input_index_error (E T L : ℚ → ℚ)
    (i o k : ℕ) (gw : ℕ → ℕ → ℚ) (gb : ℕ → ℚ)
    (lw : ℕ → ℕ → ℕ → ℚ) (lb : ℕ → ℕ → ℚ) (a l : Bool)
    (b : ℕ) (f : List ℕ → ℚ) (hk : 1 ≤ k) :
    errOf ((MixtureOfSoftmax.init i o gw gb lw lb k a l).forward E T L
      ⟨[b, i], f⟩) = some PyErr.indexError := by
  obtain ⟨n, rfl⟩ : ∃ n, k = n + 1 := ⟨k - 1, by omega⟩
  unfold MixtureOfSoftmax.forward MixtureOfSoftmax.combined
    MixtureOfSoftmax.gateWeights
  rw [show (MixtureOfSoftmax.init i o gw gb lw lb (n + 1) a l).pi_w =
        (⟨i, n + 1, gw, gb⟩ : MLPEncoder) from rfl,
      MLPEncoder.apply_two_dim]
  rw [show (MixtureOfSoftmax.init i o gw gb lw lb (n + 1) a l).layers =
        (⟨i, o, lw 0, lb 0⟩ : MLPEncoder) ::
          ((List.range n).map Nat.succ).map
            (fun j => (⟨i, o, lw j, lb j⟩ : MLPEncoder)) from by
    simp [MixtureOfSoftmax.init, List.range_succ_eq_map, List.map_map,
      Function.comp]]
  simp only [Bind.bind, Except.bind, pure, Except.pure]
  rw [combineList_two_dim _ _ _ _ b (n + 1) _ _ rfl]
  rfl

/-- C1 witness: a concrete valid configuration and 2-D input on which
`forward` raises `IndexError`. -/
theorem mos_forward_2d_input_index_error_witness :
    errOf ((MixtureOfSoftmax.init 3 2 zeroW zeroB oneLW zeroLB 1 true true).forward
      constOne idQ idQ ⟨[1, 3], fun _ => 0⟩) = some PyErr.indexError :=
  mos_forward_2d_input_index_error constOne idQ idQ 3 2 1 zeroW zeroB oneLW
    zeroLB true true 1 (fun _ => 0) (by decide)

/-- C3: `forward` never returns a result: whenever the combination of lines
90–93 succeeds, the read of `self.use_activation` on line 94 raises
`AttributeError` (that attribute is never assigned by `__init__`) — for every
instance, in particular one constructed with `use_activation = False`, which
the claim says returns the combined output unchanged without failing. -/
theorem mos_forward_always_attribute_error (E T L : ℚ → ℚ)
    (m : MixtureOfSoftmax) (d : Tensor)
    (h : errOf (m.combined E T d) = none) :
    errOf (m.forward E T L d) = some PyErr.attributeError := by
  unfold MixtureOfSoftmax.forward
  cases hc : m.combined E T d with
  | error e => rw [hc] at h; simp [errOf] at h
  | ok out =>
      simp [hc, MixtureOfSoftmax.use_activation_attr, Bind.bind, Except.bind,
        errOf]

/-- C3 witness: a concrete `use_activation = False` instance and 3-D input on
which the combination succeeds yet `forward` raises `AttributeError`. -/
theorem mos_forward_always_attribute_error_witness :
    errOf ((MixtureOfSoftmax.init 2 1 zeroW zeroB oneLW zeroLB 1 false true).forward
      constOne idQ idQ ⟨[1, 1, 2], fun _ => 0⟩) = some PyErr.attributeError :=
  mos_forward_always_attribute_error constOne idQ idQ
    (MixtureOfSoftmax.init 2 1 zeroW zeroB oneLW zeroLB 1 false true)
    ⟨[1, 1, 2], fun _ => 0⟩ (by with_unfolding_all decide)

/-- C4: the gate weights are NOT a probability distribution along the last
axis.  On the 3-D input below (`k = 2`, zero gate parameters, exponential `E`
arbitrary with `E 0 ≠ 0`), `nn.Softmax()` legacy-normalizes along dimension 0,
and each of the two entries of the slice along the last axis equals `1/3`, so
the slice sums to `2/3 ≠ 1`. -/
theorem mos_gate_weights_not_last_axis (E : ℚ → ℚ) (hE : E 0 ≠ 0) :
    entryAt ((MixtureOfSoftmax.init 1 1 zeroW zeroB oneLW zeroLB 2 true true).gateWeights
      E ⟨[3, 1, 1], fun _ => 0⟩) [0, 0, 0] = some (1/3) ∧
    entryAt ((MixtureOfSoftmax.init 1 1 zeroW zeroB oneLW zeroLB 2 true true).gateWeights
      E ⟨[3, 1, 1], fun _ => 0⟩) [0, 0, 1] = some (1/3) ∧
    ((1 : ℚ)/3 + 1/3) ≠ 1 := by
  have h3 : E 0 + (E 0 + (E 0 + 0)) = 3 * E 0 := by ring
  have hne : (3 : ℚ) * E 0 ≠ 0 := mul_ne_zero (by norm_num) hE
  refine ⟨?_, ?_, by norm_num⟩
  · rw [show entryAt ((MixtureOfSoftmax.init 1 1 zeroW zeroB oneLW zeroLB 2 true
          true).gateWeights E ⟨[3, 1, 1], fun _ => 0⟩) [0, 0, 0] =
        some (E 0 / (E 0 + (E 0 + (E 0 + 0)))) from by with_unfolding_all rfl]
    congr 1
    rw [h3, div_eq_iff hne]
    ring
  · rw [show entryAt ((MixtureOfSoftmax.init 1 1 zeroW zeroB oneLW zeroLB 2 true
          true).gateWeights E ⟨[3, 1, 1], fun _ => 0⟩) [0, 0, 1] =
        some (E 0 / (E 0 + (E 0 + (E 0 + 0)))) from by with_unfolding_all rfl]
    congr 1
    rw [h3, div_eq_iff hne]
    ring

/-- C4 witness: the statement instantiated at a concrete positive
exponential. -/
theorem mos_gate_weights_not_last_axis_witness :
    entryAt ((MixtureOfSoftmax.init 1 1 zeroW zeroB oneLW zeroLB 2 true true).gateWeights
      constOne ⟨[3, 1, 1], fun _ => 0⟩) [0, 0, 0] = some (1/3) ∧
    entryAt ((MixtureOfSoftmax.init 1 1 zeroW zeroB oneLW zeroLB 2 true true).gateWeights
      constOne ⟨[3, 1, 1], fun _ => 0⟩) [0, 0, 1] = some (1/3) ∧
    ((1 : ℚ)/3 + 1/3) ≠ 1 :=
  mos_gate_weights_not_last_axis constOne (by norm_num [constOne])

/-- C8: calling `forward` with an input whose last dimension differs from the
configured `input_size` (or with no dimensions at all) fails with the
shape-mismatch error raised by the gate projection on line 90, whatever the
remaining configuration; no result is returned. -/
theorem mos_forward_last_dim_mismatch (E T L : ℚ → ℚ)
    (i o k : ℕ) (gw : ℕ → ℕ → ℚ) (gb : ℕ → ℚ)
    (lw : ℕ → ℕ → ℕ → ℚ) (lb : ℕ → ℕ → ℚ) (a l : Bool) (d : Tensor)
    (h : d.shape.getLast? ≠ some i) :
    errOf ((MixtureOfSoftmax.init i o gw gb lw lb k a l).forward E T L d) =
      some PyErr.shapeMismatch := by
  have happ : (MixtureOfSoftmax.init i o gw gb lw lb k a l).pi_w.apply d =
      .error .shapeMismatch := by
    simp only [MixtureOfSoftmax.init, MLPEncoder.apply]
    rw [if_neg h]
  unfold MixtureOfSoftmax.forward MixtureOfSoftmax.combined
    MixtureOfSoftmax.gateWeights
  rw [happ]
  rfl

/-- C8 witness: a concrete instance with `input_size = 2` rejects a 1-D input
of size 3. -/
theorem mos_forward_last_dim_mismatch_witness :
    errOf ((MixtureOfSoftmax.init 2 1 zeroW zeroB oneLW zeroLB 1 true true).forward
      constOne idQ idQ ⟨[3], fun _ => 0⟩) = some PyErr.shapeMismatch :=
  mos_forward_last_dim_mismatch constOne idQ idQ 2 1 1 zeroW zeroB oneLW zeroLB
    true true ⟨[3], fun _ => 0⟩ (by decide)

/-- C9: after construction with mixture count `k`, the number of component
projections equals `k` and the gate projection maps `input_size` to `k`, so
whenever the gate-logits computation succeeds its result has last dimension
`k`; the structure is immutable, so every operation preserves this. -/
theorem mos_component_count_invariant (i o k : ℕ) (gw : ℕ → ℕ → ℚ)
    (gb : ℕ → ℚ) (lw : ℕ → ℕ → ℕ → ℚ) (lb : ℕ → ℕ → ℚ) (a l : Bool)
    (t : Tensor) (s : List ℕ)
    (h : shapeOf ((MixtureOfSoftmax.init i o gw gb lw lb k a l).pi_w.apply t) =
      some s) :
    (MixtureOfSoftmax.init i o gw gb lw lb k a l).layers.length = k ∧
    (MixtureOfSoftmax.init i o gw gb lw lb k a l).pi_w.in_size = i ∧
    (MixtureOfSoftmax.init i o gw gb lw lb k a l).pi_w.out_size = k ∧
    s.getLast? = some k := by
  refine ⟨by simp [MixtureOfSoftmax.init], rfl, rfl, ?_⟩
  unfold MLPEncoder.apply at h
  by_cases hc : t.shape.getLast? =
      some (MixtureOfSoftmax.init i o gw gb lw lb k a l).pi_w.in_size
  · rw [if_pos hc] at h
    simp only [shapeOf, MixtureOfSoftmax.init, Option.some_inj] at h
    rw [← h]
    exact List.getLast?_concat _
  · rw [if_neg hc] at h
    simp [shapeOf] at h

/-- C9 witness: a concrete construction with `k = 2` and a successful
gate-logits computation whose result has last dimension 2. -/
theorem mos_component_count_invariant_witness :
    (MixtureOfSoftmax.init 1 1 zeroW zeroB oneLW zeroLB 2 true true).layers.length = 2 ∧
    (MixtureOfSoftmax.init 1 1 zeroW zeroB oneLW zeroLB 2 true true).pi_w.in_size = 1 ∧
    (MixtureOfSoftmax.init 1 1 zeroW zeroB oneLW zeroLB 2 true true).pi_w.out_size = 2 ∧
    ([2] : List ℕ).getLast? = some 2 :=
  mos_component_count_invariant 1 1 2 zeroW zeroB oneLW zeroLB true true
    ⟨[1], fun _ => 0⟩ [2] (by decide)
